import Mathlib

/-!
Shallow embedding of the RAG pipeline of the Voice-RAG-Chatbot repository
(`src/rag_system.py` and the query handler of `app.py`).

External collaborators (the langchain loaders, the text splitter, the Chroma
vector store, the Gemini QA chain, the file system) are modelled as explicit
oracle values: every exception an external call can raise is an explicit
outcome value, so each method of `RAGSystem` becomes a total Lean function
whose result spells out both the returned value and the side effects
(messages shown, chain invocations, directory deletions) as an event list.
A Python method that catches an exception corresponds to a branch consuming
an error outcome; a method that raises corresponds to an `Option`/flagged
result.
-/

/-- A langchain `Document`: page content plus the two metadata keys the
repository reads and writes (`source`, `file_type`). -/
structure Doc where
  page_content : String
  source : Option String
  file_type : Option String
  deriving DecidableEq

/-- The Chroma collection: the list of indexed chunk documents.
`count()` is the length of this list. -/
structure VectorStore where
  docs : List Doc
  deriving DecidableEq

/-- The mutable attributes of a `RAGSystem` instance, together with whether
the configured persist directory currently exists on disk. -/
structure RAGState where
  vectorstore : Option VectorStore
  qa_chain : Bool
  documents : List Doc
  persistDirExists : Bool
  deriving DecidableEq

/-- Observable side effects: streamlit messages by level, an invocation of
the QA chain (which embeds the question, searches the index and calls the
generator), and a successful removal of the persist directory. -/
inductive Event where
  | info (msg : String)
  | success (msg : String)
  | warn (msg : String)
  | error (msg : String)
  | qaInvoke (question : String)
  | deleteDir
  deriving DecidableEq

/-- The dictionary returned by `query_knowledge_base`. -/
structure QueryResult where
  answer : String
  source_documents : List Doc
  deriving DecidableEq

/-- Outcome of a `loader.load()` call on one uploaded file: the documents it
returns, or the exception it raises (corrupt file, encoding error, missing
temp file, and so on). -/
inductive LoadOutcome where
  | ok (docs : List Doc)
  | err (msg : String)
  deriving DecidableEq

/-- One uploaded streamlit file: its name, the oracle outcome of loading it,
and whether `vectorstore.add_documents` raises for its chunks. -/
structure UploadedFile where
  name : String
  loadResult : LoadOutcome
  addFails : Bool
  deriving DecidableEq

/-- Outcome of one `shutil.rmtree` call on the persist directory. -/
inductive DelResult where
  | ok
  | permError
  | otherError
  deriving DecidableEq

/-- Environment for `clear_knowledge_base`: whether `_client.reset()` raises,
and the outcomes of the successive `rmtree` attempts, consumed in order
(exhausted list defaults to success). -/
structure ClearEnv where
  resetFails : Bool
  deletes : List DelResult
  deriving DecidableEq

/-- Outcome of `qa_chain.invoke` on a question: the generated answer with its
source documents, or the exception raised while embedding, retrieving or
generating. -/
inductive InvokeOutcome where
  | ok (answer : String) (sources : List Doc)
  | err (msg : String)
  deriving DecidableEq

/-- One chat message of the streamlit session state. -/
structure ChatMsg where
  role : String
  content : String
  sources : List Doc
  deriving DecidableEq

/-- The part of the streamlit session state `handle_query` touches. -/
structure Session where
  messages : List ChatMsg
  rag : Option RAGState
  deriving DecidableEq

/-- ASCII lowering of one character (the file types and extensions the code
compares are ASCII). -/
def lowerChar (c : Char) : Char :=
  if 65 ≤ c.toNat ∧ c.toNat ≤ 90 then Char.ofNat (c.toNat + 32) else c

/-- `str.lower()` on ASCII text. -/
def lowerStr (s : String) : String :=
  String.mk (s.data.map lowerChar)

/-- Whitespace test used by `str.strip()`. -/
def isWS (c : Char) : Bool :=
  c = ' ' || c = '\t' || c = '\n' || c = '\r'

/-- `str.strip()`: drop leading and trailing whitespace. -/
def stripStr (s : String) : String :=
  String.mk (((s.data.dropWhile isWS).reverse.dropWhile isWS).reverse)

/-- Split a character list at every dot, keeping empty segments, as
`str.split` with a dot separator does. -/
def splitDotAux : List Char → List Char → List (List Char)
  | [], acc => [acc.reverse]
  | c :: rest, acc =>
    if c = '.' then acc.reverse :: splitDotAux rest [] else splitDotAux rest (c :: acc)

/-- `uploaded_file.name.split(chr 46)[-1].lower()`: the declared extension of
an uploaded file. -/
def extOf (name : String) : String :=
  lowerStr (String.mk ((splitDotAux name.data []).getLastD []))

/-- The lowered file types for which `load_document` constructs a loader. -/
def isSupportedExt (t : String) : Bool :=
  t = "pdf" || t = "txt" || t = "docx" || t = "doc"

/-- `RAGSystem.load_document`: dispatches on the lowered file type; an
unsupported type raises `ValueError` which the method catches itself, as it
catches every loader exception, reporting an error message and returning an
empty list. The caller never sees an exception. -/
def load_document (f : UploadedFile) (file_type : String) : List Doc × List Event :=
  if isSupportedExt (lowerStr file_type) then
    match f.loadResult with
    | LoadOutcome.ok docs => (docs, [])
    | LoadOutcome.err e => ([], [Event.error ("Error loading document: " ++ e)])
  else
    ([], [Event.error ("Error loading document: Unsupported file type: " ++ file_type)])

/-- The metadata stamping loop of `process_documents`: set `source` to the
uploaded file name and `file_type` to its extension. -/
def stampDoc (nm ext : String) (d : Doc) : Doc :=
  { d with source := some nm, file_type := some ext }

/-- A file is processed end-to-end when its loader returns a non-empty
document list (which also requires a supported extension) and the
vector-store add does not raise. -/
def fileSucceeds (f : UploadedFile) : Bool :=
  !(load_document f (extOf f.name)).1.isEmpty && !f.addFails

/-- The stamped chunks a successfully processed file contributes, for a given
splitter. -/
def fileChunks (split : List Doc → List Doc) (f : UploadedFile) : List Doc :=
  (split (load_document f (extOf f.name)).1).map (stampDoc f.name (extOf f.name))

/-- The per-file body of `process_documents`: load, split, stamp metadata,
add to the vector store and to the in-memory list. Any failure is caught by
the per-file handler: the state is left unchanged and the file is not
counted. -/
def processFile (split : List Doc → List Doc) (s : RAGState) (f : UploadedFile) :
    RAGState × Bool × List Event :=
  let ext := extOf f.name
  let r := load_document f ext
  if r.1.isEmpty then
    (s, false, r.2)
  else
    let texts := (split r.1).map (stampDoc f.name ext)
    match s.vectorstore with
    | none => (s, false, r.2 ++ [Event.error ("Error processing " ++ f.name)])
    | some vs =>
      if f.addFails then
        (s, false, r.2 ++ [Event.error ("Error processing " ++ f.name)])
      else
        ({ s with vectorstore := some (VectorStore.mk (vs.docs ++ texts)),
                  documents := s.documents ++ texts },
         true,
         r.2 ++ [Event.success ("Processed " ++ f.name)])

/-- The loop of `process_documents` over the uploaded files, in order. -/
def processFiles (split : List Doc → List Doc) (s : RAGState) :
    List UploadedFile → RAGState × Nat × List Event
  | [] => (s, 0, [])
  | f :: rest =>
    let r1 := processFile split s f
    let r2 := processFiles split r1.1 rest
    (r2.1, (if r1.2.1 then 1 else 0) + r2.2.1, r1.2.2 ++ r2.2.2)

/-- `RAGSystem.process_documents`: process each file, then report the batch
result; returns the count of files processed end-to-end. -/
def process_documents (split : List Doc → List Doc) (s : RAGState)
    (files : List UploadedFile) : RAGState × Nat × List Event :=
  let r := processFiles split s files
  (r.1, r.2.1,
   r.2.2 ++ (if r.2.1 > 0 then [Event.success "Successfully processed documents"] else []))

/-- `RAGSystem.query_knowledge_base`. The whole body sits in one
`try/except`, so the function is total by construction: the `none`
vector-store branch is the caught `AttributeError` of
`self.vectorstore._collection`, and an `err` invoke outcome is the caught
chain exception. -/
def query_knowledge_base (s : RAGState) (res : InvokeOutcome) (question : String) :
    QueryResult × List Event :=
  if s.qa_chain = false then
    ({ answer := "QA system not initialized. Please check your Google API key.",
       source_documents := [] }, [])
  else
    match s.vectorstore with
    | none =>
      ({ answer := "Error processing your question: NoneType object has no attribute _collection",
         source_documents := [] },
       [Event.error "Error querying knowledge base"])
    | some vs =>
      if vs.docs.length = 0 then
        ({ answer := "No documents in knowledge base. Please upload some documents first.",
           source_documents := [] }, [])
      else
        match res with
        | InvokeOutcome.ok ans srcs =>
          ({ answer := ans, source_documents := srcs }, [Event.qaInvoke question])
        | InvokeOutcome.err e =>
          ({ answer := "Error processing your question: " ++ e, source_documents := [] },
           [Event.qaInvoke question, Event.error ("Error querying knowledge base: " ++ e)])

/-- `RAGSystem.get_knowledge_base_stats`: total count from the collection,
distinct sources from the in-memory `documents` list (a Python set, modelled
as the deduplicated list). A missing vector store yields the zero result. -/
def get_knowledge_base_stats (s : RAGState) : Nat × List String :=
  match s.vectorstore with
  | none => (0, [])
  | some vs => (vs.docs.length, (s.documents.filterMap (fun d => d.source)).dedup)

/-- Consume the next `rmtree` outcome of the environment. -/
def nextDel (ds : List DelResult) : DelResult × List DelResult :=
  match ds with
  | [] => (DelResult.ok, [])
  | d :: rest => (d, rest)

/-- `RAGSystem.setup_fresh_vectorstore`: remove the persist directory when it
exists (any `rmtree` failure is reported and re-raised, hence the `none`
result), then create a fresh empty Chroma store at the same path. -/
def setup_fresh_vectorstore (s : RAGState) (ds : List DelResult) :
    Option RAGState × List DelResult × List Event :=
  if s.persistDirExists then
    match nextDel ds with
    | (DelResult.ok, rest) =>
      (some { s with persistDirExists := true, vectorstore := some (VectorStore.mk []) },
       rest, [Event.deleteDir, Event.info "Created fresh knowledge base"])
    | (_, rest) =>
      (none, rest, [Event.error "Error setting up fresh vectorstore"])
  else
    (some { s with persistDirExists := true, vectorstore := some (VectorStore.mk []) },
     ds, [Event.info "Created fresh knowledge base"])

/-- The outer `except` block of `clear_knowledge_base`: report the error and
try `setup_fresh_vectorstore` once more, swallowing any further failure;
returns `False` either way. -/
def clearOuterRescue (s : RAGState) (ds : List DelResult) : RAGState × Bool × List Event :=
  match setup_fresh_vectorstore s ds with
  | (some s2, _, evs) => (s2, false, evs ++ [Event.info "Created new knowledge base"])
  | (none, _, evs) => (s, false, evs)

/-- The tail of `clear_knowledge_base` after the guarded `rmtree`: call
`setup_fresh_vectorstore`; on success report and return `True`, on its raise
fall into the outer `except` block. -/
def clearFinish (s : RAGState) (ds : List DelResult) (evs0 : List Event) :
    RAGState × Bool × List Event :=
  match setup_fresh_vectorstore s ds with
  | (some s2, _, evs) =>
    (s2, true, evs0 ++ evs ++ [Event.success "Knowledge base cleared successfully"])
  | (none, rest, evs) =>
    let r := clearOuterRescue s rest
    (r.1, r.2.1, evs0 ++ evs ++ [Event.error "Error clearing knowledge base"] ++ r.2.2)

/-- The part of `clear_knowledge_base` after the detach step, acting on the
already-updated state: the guarded `rmtree` (catching only
`PermissionError`), then the rebuild, with any other failure reaching the
outer `except` block. -/
def clearBody (s2 : RAGState) (ds : List DelResult) : RAGState × Bool × List Event :=
  if s2.persistDirExists then
    match nextDel ds with
    | (DelResult.ok, rest) =>
      clearFinish { s2 with persistDirExists := false } rest
        [Event.deleteDir, Event.success "Knowledge base directory cleared"]
    | (DelResult.permError, rest) =>
      clearFinish s2 rest
        [Event.warn "Could not delete old files, creating fresh database"]
    | (DelResult.otherError, rest) =>
      let r := clearOuterRescue s2 rest
      (r.1, r.2.1, [Event.error "Error clearing knowledge base"] ++ r.2.2)
  else
    clearFinish s2 ds []

/-- `RAGSystem.clear_knowledge_base`: empty the in-memory `documents` list,
detach the vector-store handle (left in place when `_client.reset()` raises,
matching the ignored-errors close block), attempt to delete the persist
directory catching only `PermissionError`, then rebuild a fresh store; any
other failure reaches the outer `except` block. -/
def clear_knowledge_base (s : RAGState) (env : ClearEnv) : RAGState × Bool × List Event :=
  let s1 := { s with documents := [] }
  let s2 := if env.resetFails then s1 else { s1 with vectorstore := none }
  clearBody s2 env.deletes

/-- `RAGSystem.__init__` (with the external embedding-model and QA-chain
setup succeeding, which is the only way construction completes): always
calls `setup_fresh_vectorstore`, never the loading `setup_vectorstore`
variant; `dirExists` says whether a previously persisted index sits at the
configured path. A raise during the fresh setup propagates out of the
constructor (`none`). -/
def rag_init (dirExists : Bool) (ds : List DelResult) : Option (RAGState × List Event) :=
  let s0 : RAGState :=
    { vectorstore := none, qa_chain := false, documents := [], persistDirExists := dirExists }
  match setup_fresh_vectorstore s0 ds with
  | (some s1, _, evs) => some ({ s1 with qa_chain := true }, evs)
  | (none, _, _) => none

/-- `app.handle_query`: reject a blank question with a warning before
touching anything, otherwise append the user message, run the RAG query and
append the assistant message with its sources. -/
def handle_query (sess : Session) (res : InvokeOutcome) (question : String) :
    Session × List Event :=
  if stripStr question = "" then
    (sess, [Event.warn "Please enter a question."])
  else
    let sess1 : Session := { sess with messages := sess.messages ++ [ChatMsg.mk "user" question []] }
    match sess.rag with
    | none => (sess1, [Event.error "RAG system not initialized. Please provide Google API key."])
    | some rs =>
      let qr := query_knowledge_base rs res question
      ({ sess1 with
         messages := sess1.messages ++ [ChatMsg.mk "assistant" qr.1.answer qr.1.source_documents] },
       qr.2)

/-- Concrete chunk fixture. -/
def docHello : Doc := { page_content := "hello", source := none, file_type := none }

/-- Concrete chunk fixture with stamped metadata. -/
def docParis : Doc :=
  { page_content := "Paris is the capital of France.", source := some "doc1", file_type := some "txt" }

/-- A text file whose loader succeeds with one document. -/
def fGood : UploadedFile :=
  { name := "notes.txt", loadResult := LoadOutcome.ok [docHello], addFails := false }

/-- A text file whose loader raises. -/
def fBad : UploadedFile :=
  { name := "bad.txt", loadResult := LoadOutcome.err "boom", addFails := false }

/-- A ready state with an empty knowledge base. -/
def sEmptyKB : RAGState :=
  { vectorstore := some (VectorStore.mk []), qa_chain := true, documents := [],
    persistDirExists := true }

/-- A ready state with one indexed chunk. -/
def sOneDoc : RAGState :=
  { vectorstore := some (VectorStore.mk [docParis]), qa_chain := true, documents := [docParis],
    persistDirExists := true }

/-- Environment of a persistently locked persist directory (the handle
detach succeeds, every delete raises `PermissionError`). -/
def envLocked : ClearEnv :=
  { resetFails := false,
    deletes := [DelResult.permError, DelResult.permError, DelResult.permError] }

/-- Environment where `_client.reset()` raises and every delete raises
`PermissionError`. -/
def envStuck : ClearEnv :=
  { resetFails := true,
    deletes := [DelResult.permError, DelResult.permError, DelResult.permError] }

/-- C1: `query_knowledge_base` never raises: the embedding is total by
construction, and any exception of the embed/retrieve/generate chain
(an `err` invoke outcome) is converted into a result whose answer describes
the failure and whose cited chunks are empty. -/
theorem query_never_raises (s : RAGState) (vs : VectorStore) (q e : String)
    (h1 : s.qa_chain = true) (h2 : s.vectorstore = some vs) (h3 : vs.docs ≠ []) :
    query_knowledge_base s (InvokeOutcome.err e) q =
      ({ answer := "Error processing your question: " ++ e, source_documents := [] },
       [Event.qaInvoke q, Event.error ("Error querying knowledge base: " ++ e)]) := by
  simp [query_knowledge_base, h1, h2, h3]

/-- Witness for C1 at a concrete one-chunk state and failing chain. -/
theorem query_never_raises_witness :
    sOneDoc.qa_chain = true ∧ sOneDoc.vectorstore = some (VectorStore.mk [docParis]) ∧
    query_knowledge_base sOneDoc (InvokeOutcome.err "quota") "q" =
      ({ answer := "Error processing your question: " ++ "quota", source_documents := [] },
       [Event.qaInvoke "q", Event.error ("Error querying knowledge base: " ++ "quota")]) :=
  ⟨rfl, rfl, query_never_raises sOneDoc (VectorStore.mk [docParis]) "q" "quota" rfl rfl (by decide)⟩

/-- C2: with an initialized chain and an empty index, `query_knowledge_base`
returns the fixed no-documents answer with empty citations and produces no
events at all: in particular the QA chain (embedder plus generator) is never
invoked. -/
theorem query_empty_kb_short_circuit (s : RAGState) (res : InvokeOutcome) (q : String)
    (vs : VectorStore) (h1 : s.qa_chain = true) (h2 : s.vectorstore = some vs)
    (h3 : vs.docs = []) :
    query_knowledge_base s res q =
      ({ answer := "No documents in knowledge base. Please upload some documents first.",
         source_documents := [] }, []) := by
  simp [query_knowledge_base, h1, h2, h3]

/-- Witness for C2 at the concrete empty knowledge base. -/
theorem query_empty_kb_short_circuit_witness :
    sEmptyKB.qa_chain = true ∧ sEmptyKB.vectorstore = some (VectorStore.mk []) ∧
    query_knowledge_base sEmptyKB (InvokeOutcome.ok "ans" []) "hi" =
      ({ answer := "No documents in knowledge base. Please upload some documents first.",
         source_documents := [] }, []) :=
  ⟨rfl, rfl, query_empty_kb_short_circuit sEmptyKB (InvokeOutcome.ok "ans" []) "hi"
    (VectorStore.mk []) rfl rfl rfl⟩

/-- C3 counterexample: on a whitespace-only question against a non-empty
index, `RAGSystem.query_knowledge_base` performs no validation: it invokes
the QA chain (embedding, retrieval and generation) and returns the generated
answer, not a validation-error result. -/
theorem query_blank_question_invokes_chain :
    (query_knowledge_base sOneDoc (InvokeOutcome.ok "ans" [docParis]) " ").2 =
      [Event.qaInvoke " "] ∧
    (query_knowledge_base sOneDoc (InvokeOutcome.ok "ans" [docParis]) " ").1 =
      { answer := "ans", source_documents := [docParis] } := by
  constructor <;> rfl

/-- C3 amended: blank-question validation lives in the app layer. For every
question that trims to empty, `handle_query` emits exactly one warning and
returns the session unchanged, never consulting the RAG system (no index,
embedding or generation access). -/
theorem handle_query_blank_validation (sess : Session) (res : InvokeOutcome) (q : String)
    (h : stripStr q = "") :
    handle_query sess res q = (sess, [Event.warn "Please enter a question."]) := by
  unfold handle_query
  rw [h]
  simp

/-- Witness for the amended C3 at a whitespace question. -/
theorem handle_query_blank_validation_witness :
    stripStr "   " = "" ∧
    handle_query (Session.mk [] (some sOneDoc)) (InvokeOutcome.ok "a" []) "   " =
      (Session.mk [] (some sOneDoc), [Event.warn "Please enter a question."]) :=
  ⟨by decide, handle_query_blank_validation (Session.mk [] (some sOneDoc))
    (InvokeOutcome.ok "a" []) "   " (by decide)⟩

/-- C6 counterexample: a file of declared type `xyz` does not surface any
unsupported-format error to the caller: `load_document` returns a plain
empty list (the `ValueError` it raises internally is caught by the method
itself), and the type `doc`, also outside the pdf/txt/docx set, is accepted
and loaded normally. -/
theorem load_document_unsupported_no_raise :
    load_document fGood "xyz" =
      ([], [Event.error "Error loading document: Unsupported file type: xyz"]) ∧
    load_document fGood "doc" = ([docHello], []) := by
  constructor <;> rfl

/-- C6 amended: for every declared type whose lowering is outside
pdf/txt/docx/doc, `load_document` raises `ValueError` internally, catches it
itself, reports an error-level message naming the type, and returns an empty
document list to the caller; no exception reaches the caller. -/
theorem load_document_unsupported_returns_empty (f : UploadedFile) (t : String)
    (h : isSupportedExt (lowerStr t) = false) :
    load_document f t =
      ([], [Event.error ("Error loading document: Unsupported file type: " ++ t)]) := by
  simp [load_document, h]

/-- Witness for the amended C6 at the concrete type `xyz`. -/
theorem load_document_unsupported_returns_empty_witness :
    isSupportedExt (lowerStr "xyz") = false ∧
    load_document fGood "xyz" =
      ([], [Event.error ("Error loading document: Unsupported file type: " ++ "xyz")]) :=
  ⟨by decide, load_document_unsupported_returns_empty fGood "xyz" (by decide)⟩

/-- C7: successful construction always goes through
`setup_fresh_vectorstore`: whenever a persisted index directory exists it is
deleted (the `deleteDir` event) rather than loaded, and the resulting state
has an empty vector store, an empty document list and an initialized chain.
The prior index is never read. -/
theorem init_discards_existing_index (dirExists : Bool) (ds : List DelResult) :
    rag_init dirExists (DelResult.ok :: ds) =
      some ({ vectorstore := some (VectorStore.mk []), qa_chain := true, documents := [],
              persistDirExists := true },
            if dirExists then [Event.deleteDir, Event.info "Created fresh knowledge base"]
            else [Event.info "Created fresh knowledge base"]) := by
  cases dirExists <;> rfl

/-- Helper: with a vector store present, one iteration of the ingest loop
either performs the full load-split-stamp-add pipeline (when the file
succeeds) or leaves the state untouched, and its success flag is exactly
`fileSucceeds`. -/
theorem processFile_fst (split : List Doc → List Doc) (s : RAGState) (f : UploadedFile)
    (vs : VectorStore) (h : s.vectorstore = some vs) :
    (processFile split s f).1 =
      (if fileSucceeds f then
        { s with vectorstore := some (VectorStore.mk (vs.docs ++ fileChunks split f)),
                 documents := s.documents ++ fileChunks split f }
      else s) ∧
    (processFile split s f).2.1 = fileSucceeds f := by
  unfold processFile fileSucceeds fileChunks
  rw [h]
  cases hl : (load_document f (extOf f.name)).1.isEmpty
  · cases ha : f.addFails
    · simp [hl, ha]
    · simp [hl, ha]
  · simp [hl]

/-- Helper: the ingest loop over a file list returns the number of files
that succeed end-to-end, and appends the stamped chunks of exactly the
successful files, in their given order. -/
theorem processFiles_spec (split : List Doc → List Doc) :
    ∀ (files : List UploadedFile) (s : RAGState) (vs : VectorStore),
      s.vectorstore = some vs →
      (processFiles split s files).2.1 = (files.filter fileSucceeds).length ∧
      (processFiles split s files).1.documents =
        s.documents ++ ((files.filter fileSucceeds).map (fileChunks split)).flatten := by
  intro files
  induction files with
  | nil => intro s vs h; simp [processFiles]
  | cons f rest ih =>
    intro s vs h
    have hpf := processFile_fst split s f vs h
    cases hs : fileSucceeds f
    · rw [hs] at hpf
      simp at hpf
      have ihr := ih s vs h
      constructor
      · simp only [processFiles, hpf.1, hpf.2, List.filter_cons, hs]
        simp [ihr.1]
      · simp only [processFiles, hpf.1, List.filter_cons, hs]
        simp [ihr.2]
    · rw [hs] at hpf
      simp only [if_pos rfl] at hpf
      have ihr := ih
        { s with vectorstore := some (VectorStore.mk (vs.docs ++ fileChunks split f)),
                 documents := s.documents ++ fileChunks split f }
        (VectorStore.mk (vs.docs ++ fileChunks split f)) rfl
      constructor
      · simp only [processFiles, hpf.1, hpf.2, List.filter_cons, hs]
        simp [ihr.1]
        omega
      · simp only [processFiles, hpf.1, List.filter_cons, hs]
        simp [ihr.2]

/-- C4: `process_documents` returns exactly the number of files processed
end-to-end successfully; a per-file failure (unsupported type, loader
exception, empty load, or a raising vector-store add) is caught, skips only
that file, never raises and never aborts the batch, and the remaining files
are still processed in their given order (the surviving chunk lists are
concatenated in input order). -/
theorem ingest_counts_successes (split : List Doc → List Doc) (s : RAGState)
    (files : List UploadedFile) (vs : VectorStore) (h : s.vectorstore = some vs) :
    (process_documents split s files).2.1 = (files.filter fileSucceeds).length ∧
    (process_documents split s files).1.documents =
      s.documents ++ ((files.filter fileSucceeds).map (fileChunks split)).flatten := by
  have hm := processFiles_spec split files s vs h
  exact ⟨hm.1, hm.2⟩

/-- Witness for C4: a batch of a good file and a file whose loader raises
yields a count of one, as in the two-file scenario of the spec. -/
theorem ingest_counts_successes_witness :
    sEmptyKB.vectorstore = some (VectorStore.mk []) ∧
    (process_documents id sEmptyKB [fGood, fBad]).2.1 =
      ([fGood, fBad].filter fileSucceeds).length ∧
    (process_documents id sEmptyKB [fGood, fBad]).2.1 = 1 :=
  ⟨rfl,
   (ingest_counts_successes id sEmptyKB [fGood, fBad] (VectorStore.mk []) rfl).1,
   by decide⟩

/-- Helper: a supported lowered extension is a fixed point of lowering. -/
theorem isSupportedExt_lower (t : String) (h : isSupportedExt t = true) :
    lowerStr t = t := by
  unfold isSupportedExt at h
  simp only [Bool.or_eq_true, decide_eq_true_eq] at h
  rcases h with ((h | h) | h) | h <;> subst h <;> decide

/-- C9: `load_document` is total at its boundary: a loader exception or an
unsupported declared type yields an empty document list rather than a raise,
and a file whose load comes back empty is skipped by the ingest loop without
being counted and without touching the state. -/
theorem load_document_total_and_skip (split : List Doc → List Doc) (s : RAGState)
    (f : UploadedFile) (t e : String) :
    ((f.loadResult = LoadOutcome.err e ∨ isSupportedExt (lowerStr t) = false) →
      (load_document f t).1 = []) ∧
    ((load_document f (extOf f.name)).1 = [] →
      processFile split s f = (s, false, (load_document f (extOf f.name)).2)) := by
  constructor
  · intro h
    rcases h with h | h
    · unfold load_document
      rw [h]
      cases hsup : isSupportedExt (lowerStr t) <;> simp
    · simp [load_document, h]
  · intro h
    unfold processFile
    simp [h]

/-- Witness for C9 at a file whose loader raises. -/
theorem load_document_total_and_skip_witness :
    fBad.loadResult = LoadOutcome.err "boom" ∧
    (load_document fBad "txt").1 = [] ∧
    (load_document fBad (extOf fBad.name)).1 = [] ∧
    processFile id sEmptyKB fBad = (sEmptyKB, false, (load_document fBad (extOf fBad.name)).2) :=
  ⟨rfl,
   (load_document_total_and_skip id sEmptyKB fBad "txt" "boom").1 (Or.inl rfl),
   by decide,
   (load_document_total_and_skip id sEmptyKB fBad "txt" "boom").2 (by decide)⟩

/-- C8: ingesting one file that loads successfully and splits into N chunks
into the empty knowledge base gives a processed count of one, a total chunk
count of N, and a distinct-sources set equal to the singleton of the file
name. -/
theorem ingest_single_file_stats (split : List Doc → List Doc) (f : UploadedFile)
    (docs : List Doc) (h1 : f.loadResult = LoadOutcome.ok docs) (h2 : docs ≠ [])
    (h3 : f.addFails = false) (h4 : split docs ≠ [])
    (h5 : isSupportedExt (extOf f.name) = true) :
    (process_documents split sEmptyKB [f]).2.1 = 1 ∧
    (get_knowledge_base_stats (process_documents split sEmptyKB [f]).1).1 =
      (split docs).length ∧
    (∀ x, x ∈ (get_knowledge_base_stats (process_documents split sEmptyKB [f]).1).2 ↔
      x = f.name) := by
  have hlow : lowerStr (extOf f.name) = extOf f.name := isSupportedExt_lower _ h5
  have hload : load_document f (extOf f.name) = (docs, []) := by
    simp [load_document, hlow, h5, h1]
  have hne : docs.isEmpty = false := by
    cases docs with
    | nil => exact absurd rfl h2
    | cons d ds => rfl
  have hproc : processFile split sEmptyKB f =
      ({ sEmptyKB with
         vectorstore := some (VectorStore.mk ((split docs).map (stampDoc f.name (extOf f.name)))),
         documents := (split docs).map (stampDoc f.name (extOf f.name)) },
       true, [Event.success ("Processed " ++ f.name)]) := by
    simp only [processFile]
    rw [hload]
    simp [hne, h3, sEmptyKB]
  constructor
  · simp [process_documents, processFiles, hproc]
  constructor
  · simp [process_documents, processFiles, hproc, get_knowledge_base_stats]
  · intro x
    simp only [process_documents, processFiles, hproc, get_knowledge_base_stats,
      List.mem_dedup, List.filterMap_map]
    constructor
    · intro hx
      rcases List.mem_filterMap.mp hx with ⟨d, hd, hsome⟩
      simp [stampDoc] at hsome
      exact hsome.symm
    · intro hx
      subst hx
      rcases List.exists_mem_of_ne_nil _ h4 with ⟨d, hd⟩
      exact List.mem_filterMap.mpr ⟨d, hd, rfl⟩

/-- Witness for C8: one single-chunk text file into the empty knowledge
base. -/
theorem ingest_single_file_stats_witness :
    fGood.loadResult = LoadOutcome.ok [docHello] ∧
    ([docHello] : List Doc) ≠ [] ∧
    fGood.addFails = false ∧
    (id [docHello] : List Doc) ≠ [] ∧
    isSupportedExt (extOf fGood.name) = true ∧
    (process_documents id sEmptyKB [fGood]).2.1 = 1 ∧
    (get_knowledge_base_stats (process_documents id sEmptyKB [fGood]).1).1 = 1 :=
  ⟨rfl, by decide, rfl, by decide, by decide,
   (ingest_single_file_stats id fGood [docHello] rfl (by decide) rfl (by decide) (by decide)).1,
   (ingest_single_file_stats id fGood [docHello] rfl (by decide) rfl (by decide) (by decide)).2.1⟩

/-- Helper: `setup_fresh_vectorstore` either returns the input state with a
fresh empty store at an existing directory, or raises. -/
theorem setup_fresh_shape (s : RAGState) (ds : List DelResult) :
    (setup_fresh_vectorstore s ds).1 =
      some { s with persistDirExists := true, vectorstore := some (VectorStore.mk []) } ∨
    (setup_fresh_vectorstore s ds).1 = none := by
  unfold setup_fresh_vectorstore
  split
  · split
    · left; rfl
    · right; rfl
  · left; rfl

/-- Helper: the outer rescue block preserves the document list, returns
`false`, and either rebuilds a fresh empty store or leaves the state as it
was. -/
theorem clearOuterRescue_fields (s : RAGState) (ds : List DelResult) :
    (clearOuterRescue s ds).1.documents = s.documents ∧
    (clearOuterRescue s ds).2.1 = false ∧
    ((clearOuterRescue s ds).1.vectorstore = some (VectorStore.mk []) ∨
     (clearOuterRescue s ds).1.vectorstore = s.vectorstore) := by
  unfold clearOuterRescue
  have hsh := setup_fresh_shape s ds
  rcases hsf : setup_fresh_vectorstore s ds with ⟨o, r, evs⟩
  rw [hsf] at hsh
  cases o with
  | some s2 =>
    simp only [Option.some.injEq] at hsh
    rcases hsh with h | h
    · subst h; simp
    · exact absurd h (by simp)
  | none => simp

/-- Helper: the try-rebuild-else-rescue tail of `clear_knowledge_base`
preserves the document list and either installs a fresh empty store or
leaves the store field as it was. -/
theorem clearFinish_fields (s : RAGState) (ds : List DelResult) (evs0 : List Event) :
    (clearFinish s ds evs0).1.documents = s.documents ∧
    ((clearFinish s ds evs0).1.vectorstore = some (VectorStore.mk []) ∨
     (clearFinish s ds evs0).1.vectorstore = s.vectorstore) := by
  unfold clearFinish
  have hsh := setup_fresh_shape s ds
  rcases hsf : setup_fresh_vectorstore s ds with ⟨o, r, evs⟩
  rw [hsf] at hsh
  cases o with
  | some s2 =>
    simp only [Option.some.injEq] at hsh
    rcases hsh with h | h
    · subst h; simp
    · exact absurd h (by simp)
  | none =>
    have hr := clearOuterRescue_fields s r
    simp [hr.1, hr.2.2]

/-- Helper: `clearBody` preserves the document list and either installs a
fresh empty store or leaves the store field as given. -/
theorem clearBody_fields (s2 : RAGState) (ds : List DelResult) :
    (clearBody s2 ds).1.documents = s2.documents ∧
    ((clearBody s2 ds).1.vectorstore = some (VectorStore.mk []) ∨
     (clearBody s2 ds).1.vectorstore = s2.vectorstore) := by
  unfold clearBody
  cases hd : s2.persistDirExists
  · simp only [hd]
    have h := clearFinish_fields s2 ds []
    simpa using h
  · cases ds with
    | nil =>
      simp only [hd, nextDel]
      have h := clearFinish_fields { s2 with persistDirExists := false } []
        [Event.deleteDir, Event.success "Knowledge base directory cleared"]
      simpa using h
    | cons d rest =>
      cases d
      · simp only [hd, nextDel]
        have h := clearFinish_fields { s2 with persistDirExists := false } rest
          [Event.deleteDir, Event.success "Knowledge base directory cleared"]
        simpa using h
      · simp only [hd, nextDel]
        have h := clearFinish_fields s2 rest
          [Event.warn "Could not delete old files, creating fresh database"]
        simpa using h
      · simp only [hd, nextDel]
        have h := clearOuterRescue_fields s2 rest
        simpa using ⟨h.1, h.2.2⟩

/-- Helper: after `clear_knowledge_base` the document list is empty and the
store field is either a fresh empty store or exactly what the detach step
left (the old handle when `_client.reset()` raised, a detached `None`
otherwise). -/
theorem clear_fields (s : RAGState) (env : ClearEnv) :
    (clear_knowledge_base s env).1.documents = [] ∧
    ((clear_knowledge_base s env).1.vectorstore = some (VectorStore.mk []) ∨
     (clear_knowledge_base s env).1.vectorstore =
       (if env.resetFails then s.vectorstore else none)) := by
  unfold clear_knowledge_base
  cases hr : env.resetFails
  · have h := clearBody_fields { s with documents := [], vectorstore := none } env.deletes
    simp only [hr]
    simpa using h
  · have h := clearBody_fields { s with documents := [] } env.deletes
    simp only [hr]
    simpa using h

/-- C10: `clear_knowledge_base` unconditionally empties the in-memory
documents list as its first action, so after every clear call, in every
environment (including failing deletes and failing rebuilds),
`get_knowledge_base_stats` reports an empty sources list. -/
theorem clear_empties_documents_first (s : RAGState) (env : ClearEnv) :
    (clear_knowledge_base s env).1.documents = [] ∧
    (get_knowledge_base_stats (clear_knowledge_base s env).1).2 = [] := by
  have h := clear_fields s env
  refine ⟨h.1, ?_⟩
  cases hv : (clear_knowledge_base s env).1.vectorstore with
  | none => simp [get_knowledge_base_stats, hv]
  | some vs => simp [get_knowledge_base_stats, hv, h.1]

/-- C5 counterexample. Under a persistently locked persist directory
(`envLocked`: handle detached, every delete raises `PermissionError`), clear
does not fall back to a rebuilt empty index — the vector store is left
detached (`none`), the method returns `False`, and the degradation is
reported at error level, not only at warning level. And when the handle
detach also raises (`envStuck`), the old store survives, so the stats still
report the old chunk count of one, not zero. -/
theorem clear_locked_storage_divergence :
    ((clear_knowledge_base sOneDoc envLocked).1.vectorstore = none ∧
     (clear_knowledge_base sOneDoc envLocked).2.1 = false ∧
     Event.error "Error setting up fresh vectorstore" ∈
       (clear_knowledge_base sOneDoc envLocked).2.2) ∧
    (get_knowledge_base_stats (clear_knowledge_base sOneDoc envStuck).1).1 = 1 := by
  decide

/-- C5 amended: `clear_knowledge_base` never raises, and the stats chunk
count is zero after it whenever the store handle was detached (or was
already absent); on a transient lock — the first delete raises
`PermissionError` and the retry inside the rebuild succeeds — it rebuilds an
empty index, returns `True`, and reports the degradation with no
error-level message (only the warning); but under a persistent failure the
fallback rebuild can itself fail, leaving no rebuilt index (see the
counterexample). -/
theorem clear_degraded_behavior (s : RAGState) (env : ClearEnv) :
    ((s.vectorstore = none ∨ env.resetFails = false) →
      (get_knowledge_base_stats (clear_knowledge_base s env).1).1 = 0) ∧
    (∀ (b : Bool) (ds : List DelResult), s.persistDirExists = true →
      (clear_knowledge_base s
          (ClearEnv.mk b (DelResult.permError :: DelResult.ok :: ds))).1.vectorstore =
        some (VectorStore.mk []) ∧
      (clear_knowledge_base s
          (ClearEnv.mk b (DelResult.permError :: DelResult.ok :: ds))).2.1 = true ∧
      (∀ m, Event.error m ∉
        (clear_knowledge_base s
          (ClearEnv.mk b (DelResult.permError :: DelResult.ok :: ds))).2.2)) := by
  constructor
  · intro hyp
    have h := clear_fields s env
    have hv2 : (if env.resetFails then s.vectorstore else none) = none := by
      rcases hyp with h1 | h1
      · cases hr : env.resetFails <;> simp [h1]
      · simp [h1]
    rcases h.2 with hv | hv
    · simp [get_knowledge_base_stats, hv]
    · rw [hv2] at hv
      simp [get_knowledge_base_stats, hv]
  · intro b ds hd
    have hred : clear_knowledge_base s
        (ClearEnv.mk b (DelResult.permError :: DelResult.ok :: ds)) =
        ({ s with
            documents := [],
            vectorstore := some (VectorStore.mk []),
            persistDirExists := true },
         true,
         [Event.warn "Could not delete old files, creating fresh database", Event.deleteDir,
          Event.info "Created fresh knowledge base",
          Event.success "Knowledge base cleared successfully"]) := by
      cases b <;>
        simp [clear_knowledge_base, clearBody, clearFinish, setup_fresh_vectorstore, nextDel, hd]
    refine ⟨by rw [hred], by rw [hred], ?_⟩
    intro m
    rw [hred]
    simp

/-- Witness for the amended C5: the chunk count is zero after clearing the
one-chunk state under the locked environment, and the transient-lock run
rebuilds the empty index. -/
theorem clear_degraded_behavior_witness :
    (sOneDoc.vectorstore = none ∨ envLocked.resetFails = false) ∧
    (get_knowledge_base_stats (clear_knowledge_base sOneDoc envLocked).1).1 = 0 ∧
    sOneDoc.persistDirExists = true ∧
    (clear_knowledge_base sOneDoc
        (ClearEnv.mk false [DelResult.permError, DelResult.ok])).1.vectorstore =
      some (VectorStore.mk []) :=
  ⟨Or.inr rfl,
   (clear_degraded_behavior sOneDoc envLocked).1 (Or.inr rfl),
   rfl,
   ((clear_degraded_behavior sOneDoc
      (ClearEnv.mk false [DelResult.permError, DelResult.ok])).2 false [] rfl).1⟩
